import Mathlib

/-!
Verification of the adkuu-content-platform opportunity-scoring and
multi-account publishing core.  Python floats are modelled as exact
rationals (ℚ); timestamps are seconds-since-epoch as ℚ; the database
known-id set is a list of external post ids.
-/

set_option maxHeartbeats 1000000

namespace Adkuu

/-- Substring occurrence test on character lists: does the pattern occur
anywhere in the haystack (Python `pat in hay` on lists). -/
def strOccurs : List Char → List Char → Bool
  | [], pat => pat.isEmpty
  | c :: t, pat => pat.isPrefixOf (c :: t) || strOccurs t pat

/-- Python `pat in hay` on strings. -/
def containsSub (hay pat : String) : Bool :=
  strOccurs hay.toList pat.toList

/-- From reddit_helpers.classify_urgency: five rules evaluated in order,
first match wins. -/
def classify_urgency (velocity age_hours threshold : ℚ) : String :=
  if age_hours > 6 then "expired"
  else if velocity > threshold * 2 ∧ age_hours < 1 then "urgent"
  else if velocity > threshold ∧ age_hours < 2 then "high"
  else if velocity > threshold * 0.5 ∧ age_hours < 4 then "medium"
  else "low"

/-- From reddit_helpers.get_velocity_threshold: size-derived default ladder. -/
def get_velocity_threshold (subscribers : ℤ) : ℚ :=
  if subscribers < 50000 then 5.0
  else if subscribers < 500000 then 15.0
  else if subscribers < 2000000 then 50.0
  else 200.0

def WEIGHT_RELEVANCE : ℚ := 0.30
def WEIGHT_VIRALITY : ℚ := 0.25
def WEIGHT_TIMING : ℚ := 0.40
def WEIGHT_EFFORT : ℚ := 0.05

/-- From OpportunityMiner._calculate_composite_score (effort defaults to 0.5
at every call site). -/
def calculate_composite_score (relevance virality timing effort : ℚ) : ℚ :=
  relevance * WEIGHT_RELEVANCE +
  virality * WEIGHT_VIRALITY +
  timing * WEIGHT_TIMING +
  effort * WEIGHT_EFFORT

/-- From OpportunityMiner._calculate_timing_score: urgency tier mapped
through a fixed score table (dict lookup with default 0.3). -/
def calculate_timing_score (velocity age_hours threshold : ℚ) : ℚ :=
  match classify_urgency velocity age_hours threshold with
  | "urgent" => 1.0
  | "high" => 0.85
  | "medium" => 0.6
  | "low" => 0.3
  | "expired" => 0.1
  | _ => 0.3

/-- C1: for relevance, virality, timing each in [0,1] the composite equals
0.30·r + 0.25·v + 0.40·t + 0.05·0.5, hence lies in [0.025, 0.975]; at
r=0.8, v=0.6, t=0.85 it is exactly 0.755. -/
theorem composite_score_spec (r v t : ℚ)
    (hr0 : 0 ≤ r) (hr1 : r ≤ 1) (hv0 : 0 ≤ v) (hv1 : v ≤ 1)
    (ht0 : 0 ≤ t) (ht1 : t ≤ 1) :
    calculate_composite_score r v t 0.5
      = 0.30 * r + 0.25 * v + 0.40 * t + 0.05 * 0.5
    ∧ 0.025 ≤ calculate_composite_score r v t 0.5
    ∧ calculate_composite_score r v t 0.5 ≤ 0.975
    ∧ calculate_composite_score 0.8 0.6 0.85 0.5 = 0.755 := by
  unfold calculate_composite_score WEIGHT_RELEVANCE WEIGHT_VIRALITY WEIGHT_TIMING WEIGHT_EFFORT
  refine ⟨by ring, by nlinarith, by nlinarith, by norm_num⟩

theorem composite_score_spec_witness :
    calculate_composite_score 0.8 0.6 0.85 0.5 = 0.755 :=
  (composite_score_spec 0.8 0.6 0.85 (by norm_num) (by norm_num) (by norm_num)
    (by norm_num) (by norm_num) (by norm_num)).2.2.2

/-- C2: classify_urgency evaluates its five rules in order with first match
winning; age_hours > 6 yields "expired" for every velocity and threshold > 0;
the scenario (40, 0.5, 15) yields "urgent". -/
theorem classify_urgency_spec (v a t : ℚ) (ht : 0 < t) :
    (a > 6 → classify_urgency v a t = "expired")
  ∧ (¬ a > 6 → v > 2 * t ∧ a < 1 → classify_urgency v a t = "urgent")
  ∧ (¬ a > 6 → ¬ (v > 2 * t ∧ a < 1) → v > t ∧ a < 2 →
      classify_urgency v a t = "high")
  ∧ (¬ a > 6 → ¬ (v > 2 * t ∧ a < 1) → ¬ (v > t ∧ a < 2) →
      v > 0.5 * t ∧ a < 4 → classify_urgency v a t = "medium")
  ∧ (¬ a > 6 → ¬ (v > 2 * t ∧ a < 1) → ¬ (v > t ∧ a < 2) →
      ¬ (v > 0.5 * t ∧ a < 4) → classify_urgency v a t = "low")
  ∧ classify_urgency 40 0.5 15 = "urgent" := by
  refine ⟨?_, ?_, ?_, ?_, ?_, ?_⟩
  · intro h; unfold classify_urgency; rw [if_pos h]
  · intro h6 hu
    unfold classify_urgency
    rw [if_neg h6, if_pos (by constructor <;> [linarith [hu.1]; exact hu.2])]
  · intro h6 hnu hh
    unfold classify_urgency
    rw [if_neg h6, if_neg (by rw [mul_comm] at hnu; exact hnu),
        if_pos hh]
  · intro h6 hnu hnh hm
    unfold classify_urgency
    rw [if_neg h6, if_neg (by rw [mul_comm] at hnu; exact hnu), if_neg hnh,
        if_pos (by constructor <;> [linarith [hm.1]; exact hm.2])]
  · intro h6 hnu hnh hnm
    unfold classify_urgency
    rw [if_neg h6, if_neg (by rw [mul_comm] at hnu; exact hnu), if_neg hnh,
        if_neg (by intro hc; exact hnm ⟨by linarith [hc.1], hc.2⟩)]
  · unfold classify_urgency
    norm_num

theorem classify_urgency_spec_witness :
    classify_urgency 40 0.5 15 = "urgent" :=
  (classify_urgency_spec 40 0.5 15 (by norm_num)).2.2.2.2.2

/-- Case-folding to lower case, at the character-list level
(Python str.lower). -/
def lowerChars (l : List Char) : List Char := l.map Char.toLower

/-- Case-folding to upper case, at the character-list level
(Python str.upper). -/
def upperChars (l : List Char) : List Char := l.map Char.toUpper

/-- A Reddit submission as observed at mining time (the praw fields the
miner reads); created_utc and timestamps are seconds since epoch. -/
structure Submission where
  id : String
  title : String
  selftext : String
  is_self : Bool
  created_utc : ℚ
  score : ℤ
  num_comments : ℕ
  upvote_frac : ℚ
  subreddit_subscribers : ℕ
deriving DecidableEq

/-- The project fields the miner reads.  A Python `None` keyword list and
an empty list both behave as the empty list (falsy / `or []`). -/
structure Project where
  id : ℤ
  keywords : List String
  negative_keywords : List String
deriving DecidableEq

/-- From reddit_helpers.get_post_age_hours. -/
def get_post_age_hours (sub : Submission) (now : ℚ) : ℚ :=
  (now - sub.created_utc) / 3600

/-- From reddit_helpers.calculate_post_velocity. -/
def calculate_post_velocity (sub : Submission) (now : ℚ) : ℚ :=
  let age0 := get_post_age_hours sub now
  let age_hours := if age0 < 0.1 then 0.1 else age0
  let score_velocity := (sub.score : ℚ) / age_hours
  let comment_velocity := (sub.num_comments : ℚ) / age_hours
  score_velocity * 0.7 + comment_velocity * 0.3 * 10

/-- The case-folded title+body text the relevance scorer matches against
(the title, a space, and the selftext when is_self, all lowercased). -/
def submissionText (sub : Submission) : List Char :=
  lowerChars (sub.title ++ " " ++ (if sub.is_self then sub.selftext else "")).toList

/-- `keyword.lower() in text` for one keyword. -/
def keywordMatches (text : List Char) (kw : String) : Bool :=
  strOccurs text (lowerChars kw.toList)

/-- Number of keywords of the list matching the text. -/
def countMatches (text : List Char) (kws : List String) : ℕ :=
  (kws.filter (fun k => keywordMatches text k)).length

/-- From OpportunityMiner._calculate_relevance. -/
def calculate_relevance (sub : Submission) (project : Project) : ℚ :=
  if project.keywords = [] then 0.5
  else
    let text := submissionText sub
    let positive_matches := countMatches text project.keywords
    let negative_matches := countMatches text project.negative_keywords
    if positive_matches = 0 then 0.0
    else
      let positive_score := min ((positive_matches : ℚ) / (project.keywords.length : ℚ)) 1.0
      let negative_penalty := (negative_matches : ℚ) * 0.2
      max 0.0 (min 1.0 (positive_score - negative_penalty))

/-- C3: the relevance scorer returns 0.5 on an empty positive list, 0.0
when no positive keyword matches (whatever the negative matches), and
otherwise clamp(min(pos/total, 1) − 0.2·neg, 0, 1); the result is always
in [0,1]. -/
theorem calculate_relevance_spec (sub : Submission) (project : Project) :
    (project.keywords = [] → calculate_relevance sub project = 0.5)
  ∧ (project.keywords ≠ [] →
      countMatches (submissionText sub) project.keywords = 0 →
      calculate_relevance sub project = 0)
  ∧ (project.keywords ≠ [] →
      countMatches (submissionText sub) project.keywords ≠ 0 →
      calculate_relevance sub project
        = max 0.0 (min 1.0
            (min ((countMatches (submissionText sub) project.keywords : ℚ)
                    / (project.keywords.length : ℚ)) 1.0
              - (countMatches (submissionText sub) project.negative_keywords : ℚ) * 0.2)))
  ∧ 0 ≤ calculate_relevance sub project
  ∧ calculate_relevance sub project ≤ 1 := by
  unfold calculate_relevance
  by_cases hk : project.keywords = []
  · rw [if_pos hk]
    exact ⟨fun _ => rfl, fun h _ => absurd hk h, fun h _ => absurd hk h,
      by norm_num, by norm_num⟩
  · rw [if_neg hk]
    dsimp only
    by_cases hm : countMatches (submissionText sub) project.keywords = 0
    · rw [if_pos hm]
      exact ⟨fun h => absurd h hk, fun _ _ => by norm_num, fun _ h => absurd hm h,
        by norm_num, by norm_num⟩
    · rw [if_neg hm]
      exact ⟨fun h => absurd h hk, fun _ h => absurd h hm, fun _ _ => rfl,
        le_max_of_le_left (by norm_num),
        max_le (by norm_num) (le_trans (min_le_left _ _) (by norm_num))⟩

def subC3 : Submission :=
  { id := "p1", title := "Best AI tool?", selftext := "", is_self := false,
    created_utc := 0, score := 5, num_comments := 2, upvote_frac := 0.9,
    subreddit_subscribers := 1000 }

def projC3 : Project :=
  { id := 1, keywords := ["ai", "tool"], negative_keywords := ["crypto"] }

theorem calculate_relevance_spec_witness :
    calculate_relevance subC3 projC3
      = max 0.0 (min 1.0
          (min ((countMatches (submissionText subC3) projC3.keywords : ℚ)
                  / (projC3.keywords.length : ℚ)) 1.0
            - (countMatches (submissionText subC3) projC3.negative_keywords : ℚ) * 0.2)) :=
  (calculate_relevance_spec subC3 projC3).2.2.1 (by decide) (by decide)

/-- AccountStatus enum from reddit_account.py. -/
inductive AccountStatus
  | active
  | rate_limited
  | suspended
  | oauth_expired
  | inactive
deriving DecidableEq

/-- One entry of the subreddit_activity JSON map. -/
structure SubredditActivity where
  posts : ℕ
  karma : ℤ
deriving DecidableEq

/-- The RedditAccount fields read by can_post, selection_score and the
publisher; subreddit_activity is the JSON dict as an association list. -/
structure RedditAccount where
  username : String
  karma_comment : ℤ
  account_age_days : Option ℤ
  last_action_at : Option ℚ
  daily_actions_count : ℕ
  status : AccountStatus
  health_score : ℚ
  consecutive_failures : ℕ
  total_posts_made : ℕ
  removal_rate : ℚ
  subreddit_activity : List (String × SubredditActivity)
deriving DecidableEq

/-- RedditAccount.can_post: status active, below the configured daily cap,
and at least the configured minimum interval since the last action. -/
def can_post (a : RedditAccount) (now : ℚ) (max_daily_posts : ℕ)
    (min_action_interval : ℚ) : Bool :=
  if ¬ a.status = AccountStatus.active then false
  else if a.daily_actions_count ≥ max_daily_posts then false
  else
    match a.last_action_at with
    | some t => if now - t < min_action_interval then false else true
    | none => true

/-- RedditAccount.selection_score.  `if self.account_age_days:` is falsy
both for None and for 0. -/
def selection_score (a : RedditAccount) (max_daily_posts : ℕ) : ℚ :=
  let score1 : ℚ := 100.0 + min ((a.karma_comment : ℚ) / 1000) 20
  let score2 :=
    match a.account_age_days with
    | some d => if d ≠ 0 then score1 + min ((d : ℚ) / 30) 10 else score1
    | none => score1
  let score3 :=
    if a.removal_rate < 0.05 then score2 + 10
    else if a.removal_rate > 0.20 then score2 - 20
    else score2
  let score4 := score3 * a.health_score
  let remaining : ℤ := (max_daily_posts : ℤ) - (a.daily_actions_count : ℤ)
  let score5 := if remaining ≤ 2 then score4 - 10 else score4
  max 0 score5

/-- The per-account score computed inside
RedditPublisher._select_best_account: selection_score plus the
subreddit-history bonuses. -/
def account_publish_score (a : RedditAccount) (subreddit : String)
    (max_daily_posts : ℕ) : ℚ :=
  let base := selection_score a max_daily_posts
  match a.subreddit_activity.find? (fun p => decide (p.1 = subreddit)) with
  | some p => base + 15 + (if p.2.karma > 0 then 10 else 0)
  | none => base

/-- First element of maximal score: what a stable descending sort followed
by taking the head returns (Python list.sort is stable, so ties keep the
first-encountered account). -/
def pickFirstMax : RedditAccount × ℚ → List (RedditAccount × ℚ) → RedditAccount
  | best, [] => best.1
  | best, p :: rest => pickFirstMax (if p.2 > best.2 then p else best) rest

/-- RedditPublisher._select_best_account: filter to ACTIVE accounts (the
db query), filter by can_post, score, stable-sort descending, take the
head. -/
def select_best_account (accounts : List RedditAccount) (subreddit : String)
    (now : ℚ) (max_daily_posts : ℕ) (min_action_interval : ℚ) :
    Option RedditAccount :=
  let actives := accounts.filter (fun a => decide (a.status = AccountStatus.active))
  let available := actives.filter (fun a => can_post a now max_daily_posts min_action_interval)
  match available.map (fun a => (a, account_publish_score a subreddit max_daily_posts)) with
  | [] => none
  | p :: rest => some (pickFirstMax p rest)

/-- ContentStatus enum from generated_content.py. -/
inductive ContentStatus
  | draft
  | pending
  | approved
  | rejected
  | publishing
  | published
  | failed
  | deleted
deriving DecidableEq

/-- The two failure causes of publish_content: a praw RedditAPIException
(handled by _handle_reddit_error) or any other exception (the generic
handler). -/
inductive PublishError
  | api (msg : String)
  | unknown (msg : String)
deriving DecidableEq

/-- `pat in str(error).upper()`. -/
def upperContains (msg pat : String) : Bool :=
  strOccurs (upperChars msg.toList) pat.toList

/-- RedditPublisher._handle_reddit_error: classify the message, maybe move
the account status/health, always increment consecutive_failures and
mark the content FAILED. -/
def handle_reddit_error (account : RedditAccount) (msg : String) :
    RedditAccount × ContentStatus :=
  let account :=
    if upperContains msg "RATELIMIT" then
      { account with status := AccountStatus.rate_limited, health_score := 0.5 }
    else if upperContains msg "SUSPENDED" || upperContains msg "BANNED" then
      { account with status := AccountStatus.suspended, health_score := 0.0 }
    else if upperContains msg "TOKEN" || upperContains msg "AUTH" then
      { account with status := AccountStatus.oauth_expired, health_score := 0.3 }
    else account
  ({ account with consecutive_failures := account.consecutive_failures + 1 },
   ContentStatus.failed)

/-- The generic `except Exception` branch of publish_content: increment
consecutive_failures, degrade health by 0.2 (floored at 0) once at 3 or
more failures; the content status is left as it was. -/
def handle_generic_error (account : RedditAccount) (content_status : ContentStatus) :
    RedditAccount × ContentStatus :=
  let account := { account with consecutive_failures := account.consecutive_failures + 1 }
  let account :=
    if account.consecutive_failures ≥ 3 then
      { account with health_score := max 0 (account.health_score - 0.2) }
    else account
  (account, content_status)

/-- The failure path of publish_content: which handler runs depends only
on the exception class. -/
def publish_failure (account : RedditAccount) (content_status : ContentStatus) :
    PublishError → RedditAccount × ContentStatus
  | PublishError.api msg => handle_reddit_error account msg
  | PublishError.unknown _ => handle_generic_error account content_status

/-- C8: can_post is false at or above the daily cap regardless of
health_score, and is true exactly when the status is ACTIVE, the daily
count is below the cap, and either no last-action timestamp exists or the
minimum interval has elapsed. -/
theorem can_post_spec (a : RedditAccount) (now : ℚ) (max_daily_posts : ℕ)
    (min_action_interval : ℚ) :
    (a.daily_actions_count ≥ max_daily_posts →
      can_post a now max_daily_posts min_action_interval = false)
  ∧ (can_post a now max_daily_posts min_action_interval = true ↔
      a.status = AccountStatus.active
      ∧ a.daily_actions_count < max_daily_posts
      ∧ (a.last_action_at = none ∨
          ∃ t, a.last_action_at = some t ∧ min_action_interval ≤ now - t)) := by
  have hmain : can_post a now max_daily_posts min_action_interval = true ↔
      a.status = AccountStatus.active
      ∧ a.daily_actions_count < max_daily_posts
      ∧ (a.last_action_at = none ∨
          ∃ t, a.last_action_at = some t ∧ min_action_interval ≤ now - t) := by
    unfold can_post
    cases hl : a.last_action_at with
    | none =>
      by_cases hs : a.status = AccountStatus.active
      · by_cases hd : a.daily_actions_count ≥ max_daily_posts
        · rw [if_neg (not_not_intro hs), if_pos hd]
          simp [hs, not_lt.mpr hd]
        · rw [if_neg (not_not_intro hs), if_neg hd]
          simp [hs, lt_of_not_ge hd]
      · rw [if_pos hs]
        simp [hs]
    | some t =>
      by_cases hs : a.status = AccountStatus.active
      · by_cases hd : a.daily_actions_count ≥ max_daily_posts
        · rw [if_neg (not_not_intro hs), if_pos hd]
          simp [hs, not_lt.mpr hd]
        · by_cases hi : now - t < min_action_interval
          · rw [if_neg (not_not_intro hs), if_neg hd]
            dsimp only
            rw [if_pos hi]
            simp [hs, lt_of_not_ge hd, not_le.mpr hi]
          · rw [if_neg (not_not_intro hs), if_neg hd]
            dsimp only
            rw [if_neg hi]
            simp [hs, lt_of_not_ge hd, not_lt.mp hi]
      · rw [if_pos hs]
        simp [hs]
  refine ⟨fun hd => ?_, hmain⟩
  cases h : can_post a now max_daily_posts min_action_interval
  · rfl
  · exact absurd (hmain.mp h).2.1 (not_lt.mpr hd)

def acctC8 : RedditAccount :=
  { username := "u8", karma_comment := 300, account_age_days := some 90,
    last_action_at := none, daily_actions_count := 3,
    status := AccountStatus.active, health_score := 1,
    consecutive_failures := 0, total_posts_made := 7, removal_rate := 0,
    subreddit_activity := [] }

theorem can_post_spec_witness :
    can_post acctC8 0 10 60 = true :=
  (can_post_spec acctC8 0 10 60).2.mpr ⟨rfl, by decide, Or.inl rfl⟩

/-- C10: selection_score is clamped below at zero — for any karma, age,
removal rate or daily count, and any nonnegative health_score, the result
is nonnegative. -/
theorem selection_score_nonneg (a : RedditAccount) (max_daily_posts : ℕ)
    (h : 0 ≤ a.health_score) : 0 ≤ selection_score a max_daily_posts := by
  unfold selection_score
  exact le_max_left 0 _

def acctC10 : RedditAccount :=
  { username := "u10", karma_comment := -500, account_age_days := some 10,
    last_action_at := none, daily_actions_count := 9,
    status := AccountStatus.active, health_score := 0,
    consecutive_failures := 0, total_posts_made := 10, removal_rate := 0.5,
    subreddit_activity := [] }

theorem selection_score_nonneg_witness :
    0 ≤ selection_score acctC10 10 :=
  selection_score_nonneg acctC10 10 (by norm_num [acctC10])

/-- C4 (amended): every publish failure increments consecutive_failures by
exactly one; the −0.2 health degradation (floored at 0) at 3+ consecutive
failures happens only in the generic (non-RedditAPIException) handler,
which otherwise leaves health_score unchanged. -/
theorem publish_failure_counter_spec (a : RedditAccount) (cs : ContentStatus)
    (e : PublishError) :
    (publish_failure a cs e).1.consecutive_failures = a.consecutive_failures + 1
  ∧ (∀ msg, e = PublishError.unknown msg → 3 ≤ a.consecutive_failures + 1 →
      (publish_failure a cs e).1.health_score = max 0 (a.health_score - 0.2))
  ∧ (∀ msg, e = PublishError.unknown msg → a.consecutive_failures + 1 < 3 →
      (publish_failure a cs e).1.health_score = a.health_score) := by
  cases e with
  | api msg =>
    refine ⟨?_, fun m h => PublishError.noConfusion h, fun m h => PublishError.noConfusion h⟩
    unfold publish_failure handle_reddit_error
    dsimp only
    split_ifs <;> rfl
  | unknown msg =>
    unfold publish_failure handle_generic_error
    dsimp only
    refine ⟨by split_ifs <;> rfl, fun m _ h3 => ?_, fun m _ h3 => ?_⟩
    · rw [if_pos h3]
    · rw [if_neg (not_le.mpr h3)]

def acctC4 : RedditAccount :=
  { username := "u4", karma_comment := 0, account_age_days := none,
    last_action_at := none, daily_actions_count := 0,
    status := AccountStatus.active, health_score := 1,
    consecutive_failures := 2, total_posts_made := 0, removal_rate := 0,
    subreddit_activity := [] }

/-- C4 counterexample: an unclassified RedditAPIException ("SERVER_ERROR")
pushes consecutive_failures to 3, but health_score stays 1 instead of
dropping by 0.2. -/
theorem publish_failure_api_counterexample :
    (publish_failure acctC4 ContentStatus.approved (PublishError.api "SERVER_ERROR")).1.consecutive_failures = 3
  ∧ (publish_failure acctC4 ContentStatus.approved (PublishError.api "SERVER_ERROR")).1.health_score = 1
  ∧ ¬ ((publish_failure acctC4 ContentStatus.approved (PublishError.api "SERVER_ERROR")).1.health_score
        = max 0 (acctC4.health_score - 0.2)) := by
  have h1 : ¬ (upperContains "SERVER_ERROR" "RATELIMIT" = true) := by decide
  have h2 : ¬ ((upperContains "SERVER_ERROR" "SUSPENDED" || upperContains "SERVER_ERROR" "BANNED") = true) := by decide
  have h3 : ¬ ((upperContains "SERVER_ERROR" "TOKEN" || upperContains "SERVER_ERROR" "AUTH") = true) := by decide
  have hmax : max (0 : ℚ) (acctC4.health_score - 0.2) = 0.8 := by
    rw [show acctC4.health_score = 1 from rfl, max_eq_right] <;> norm_num
  have hval : (publish_failure acctC4 ContentStatus.approved (PublishError.api "SERVER_ERROR")).1.health_score = 1 := by
    unfold publish_failure handle_reddit_error
    dsimp only
    rw [if_neg h1, if_neg h2, if_neg h3]
    rfl
  have hcf : (publish_failure acctC4 ContentStatus.approved (PublishError.api "SERVER_ERROR")).1.consecutive_failures = 3 := by
    unfold publish_failure handle_reddit_error
    dsimp only
    rw [if_neg h1, if_neg h2, if_neg h3]
    rfl
  refine ⟨hcf, hval, ?_⟩
  rw [hval, hmax]
  norm_num

theorem publish_failure_counter_spec_witness :
    (publish_failure acctC4 ContentStatus.approved (PublishError.unknown "boom")).1.health_score
      = max 0 (acctC4.health_score - 0.2) :=
  (publish_failure_counter_spec acctC4 ContentStatus.approved (PublishError.unknown "boom")).2.1
    "boom" rfl (by decide)

/-- C5 (amended): _handle_reddit_error classifies the message — a
rate-limit signal yields RATE_LIMITED with health 0.5, a suspension/ban
signal (with no rate-limit signal) yields SUSPENDED with health 0.0, an
auth/token signal (with neither of the others) yields OAUTH_EXPIRED with
health 0.3 — and marks the content FAILED; but an unknown
(non-RedditAPIException) failure leaves the content status unchanged. -/
theorem handle_reddit_error_spec (a : RedditAccount) (cs : ContentStatus) (msg : String) :
    (upperContains msg "RATELIMIT" = true →
        (handle_reddit_error a msg).1.status = AccountStatus.rate_limited
      ∧ (handle_reddit_error a msg).1.health_score = 0.5)
  ∧ (upperContains msg "RATELIMIT" = false →
     (upperContains msg "SUSPENDED" || upperContains msg "BANNED") = true →
        (handle_reddit_error a msg).1.status = AccountStatus.suspended
      ∧ (handle_reddit_error a msg).1.health_score = 0.0)
  ∧ (upperContains msg "RATELIMIT" = false →
     (upperContains msg "SUSPENDED" || upperContains msg "BANNED") = false →
     (upperContains msg "TOKEN" || upperContains msg "AUTH") = true →
        (handle_reddit_error a msg).1.status = AccountStatus.oauth_expired
      ∧ (handle_reddit_error a msg).1.health_score = 0.3)
  ∧ (handle_reddit_error a msg).2 = ContentStatus.failed
  ∧ (publish_failure a cs (PublishError.unknown msg)).2 = cs := by
  refine ⟨fun h1 => ?_, fun h1 h2 => ?_, fun h1 h2 h3 => ?_, rfl, rfl⟩
  · unfold handle_reddit_error
    dsimp only
    rw [if_pos h1]
    exact ⟨rfl, rfl⟩
  · unfold handle_reddit_error
    dsimp only
    rw [if_neg (by simp [h1]), if_pos h2]
    exact ⟨rfl, rfl⟩
  · unfold handle_reddit_error
    dsimp only
    rw [if_neg (by simp [h1]), if_neg (by simp [h2]), if_pos h3]
    exact ⟨rfl, rfl⟩

/-- C5 counterexample: a generic (non-API) publish failure does not mark
the content FAILED — its status stays approved. -/
theorem publish_failure_unknown_counterexample :
    (publish_failure acctC4 ContentStatus.approved (PublishError.unknown "boom")).2
      = ContentStatus.approved
  ∧ ContentStatus.approved ≠ ContentStatus.failed :=
  ⟨rfl, by decide⟩

theorem handle_reddit_error_spec_witness :
    (handle_reddit_error acctC4 "please wait: ratelimit").1.status = AccountStatus.rate_limited
  ∧ (handle_reddit_error acctC4 "please wait: ratelimit").1.health_score = 0.5 :=
  (handle_reddit_error_spec acctC4 ContentStatus.approved "please wait: ratelimit").1 (by decide)

/-- The LearningFeature fields touched by record_outcome and apply_decay. -/
structure LearningFeature where
  sample_count : ℕ
  success_count : ℕ
  failure_count : ℕ
  success_rate : Option ℚ
  avg_score : Option ℚ
  bandit_alpha : ℚ
  bandit_beta : ℚ
  decay_factor : ℚ
deriving DecidableEq

/-- LearningFeature.update_success_rate. -/
def update_success_rate (f : LearningFeature) : LearningFeature :=
  let total := f.success_count + f.failure_count
  if total > 0 then
    { f with success_rate := some ((f.success_count : ℚ) / (total : ℚ)) }
  else
    { f with success_rate := none }

/-- LearningFeature.record_outcome: bump counters and the matching bandit
pseudo-count, recompute success_rate, update the rolling average
(exponential moving average with smoothing 0.1). -/
def record_outcome (f : LearningFeature) (success : Bool) (score : Option ℚ) :
    LearningFeature :=
  let f1 := { f with sample_count := f.sample_count + 1 }
  let f2 :=
    if success then
      { f1 with success_count := f1.success_count + 1,
                bandit_alpha := f1.bandit_alpha + 1 }
    else
      { f1 with failure_count := f1.failure_count + 1,
                bandit_beta := f1.bandit_beta + 1 }
  let f3 := update_success_rate f2
  match score, f3.avg_score with
  | some s, some avg => { f3 with avg_score := some (0.1 * s + (1 - 0.1) * avg) }
  | some s, none => { f3 with avg_score := some s }
  | none, _ => f3

/-- LearningFeature.apply_decay: multiply the bandit pseudo-counts by the
decay rate, flooring both at 1.0. -/
def apply_decay (f : LearningFeature) (decay_rate : ℚ) : LearningFeature :=
  { f with bandit_alpha := max 1.0 (f.bandit_alpha * decay_rate),
           bandit_beta := max 1.0 (f.bandit_beta * decay_rate),
           decay_factor := f.decay_factor * decay_rate }

theorem record_outcome_false_fields (f : LearningFeature) (score : Option ℚ) :
    (record_outcome f false score).success_count = f.success_count
  ∧ (record_outcome f false score).failure_count = f.failure_count + 1
  ∧ (record_outcome f false score).bandit_alpha = f.bandit_alpha
  ∧ (record_outcome f false score).bandit_beta = f.bandit_beta + 1
  ∧ (record_outcome f false score).success_rate
      = some ((f.success_count : ℚ)
          / ((f.success_count + (f.failure_count + 1) : ℕ) : ℚ)) := by
  unfold record_outcome update_success_rate
  dsimp only
  rw [if_neg Bool.false_ne_true,
      if_pos (show f.success_count + (f.failure_count + 1) > 0 by omega)]
  dsimp only
  cases score with
  | none => exact ⟨rfl, rfl, rfl, rfl, rfl⟩
  | some s =>
    cases hav : f.avg_score <;> dsimp only <;> exact ⟨rfl, rfl, rfl, rfl, rfl⟩

theorem record_outcome_true_fields (f : LearningFeature) (score : Option ℚ) :
    (record_outcome f true score).success_count = f.success_count + 1
  ∧ (record_outcome f true score).failure_count = f.failure_count
  ∧ (record_outcome f true score).bandit_alpha = f.bandit_alpha + 1
  ∧ (record_outcome f true score).bandit_beta = f.bandit_beta
  ∧ (record_outcome f true score).success_rate
      = some (((f.success_count + 1 : ℕ) : ℚ)
          / ((f.success_count + 1 + f.failure_count : ℕ) : ℚ)) := by
  unfold record_outcome update_success_rate
  dsimp only
  rw [if_pos rfl,
      if_pos (show f.success_count + 1 + f.failure_count > 0 by omega)]
  dsimp only
  cases score with
  | none => exact ⟨rfl, rfl, rfl, rfl, rfl⟩
  | some s =>
    cases hav : f.avg_score <;> dsimp only <;> exact ⟨rfl, rfl, rfl, rfl, rfl⟩

/-- C9: record_outcome never decreases the bandit pseudo-counts and
increments exactly one of them by 1; apply_decay leaves both at least 1.0
for any decay rate; after record_outcome the stored success_rate equals
success_count/(success_count+failure_count), whose denominator is
positive. -/
theorem learning_feature_spec (f : LearningFeature) (success : Bool)
    (score : Option ℚ) (r : ℚ) :
    f.bandit_alpha ≤ (record_outcome f success score).bandit_alpha
  ∧ f.bandit_beta ≤ (record_outcome f success score).bandit_beta
  ∧ (success = true →
        (record_outcome f success score).bandit_alpha = f.bandit_alpha + 1
      ∧ (record_outcome f success score).bandit_beta = f.bandit_beta)
  ∧ (success = false →
        (record_outcome f success score).bandit_beta = f.bandit_beta + 1
      ∧ (record_outcome f success score).bandit_alpha = f.bandit_alpha)
  ∧ 1 ≤ (apply_decay f r).bandit_alpha
  ∧ 1 ≤ (apply_decay f r).bandit_beta
  ∧ 0 < (record_outcome f success score).success_count
        + (record_outcome f success score).failure_count
  ∧ (record_outcome f success score).success_rate
      = some (((record_outcome f success score).success_count : ℚ)
          / (((record_outcome f success score).success_count
              + (record_outcome f success score).failure_count : ℕ) : ℚ)) := by
  have hda : 1 ≤ (apply_decay f r).bandit_alpha := by
    unfold apply_decay
    exact le_trans (by norm_num) (le_max_left 1.0 _)
  have hdb : 1 ≤ (apply_decay f r).bandit_beta := by
    unfold apply_decay
    exact le_trans (by norm_num) (le_max_left 1.0 _)
  cases success with
  | false =>
    obtain ⟨hs, hf, ha, hb, hr⟩ := record_outcome_false_fields f score
    refine ⟨le_of_eq ha.symm, ?_, ?_, fun _ => ⟨hb, ha⟩, hda, hdb, ?_, ?_⟩
    · rw [hb]; linarith
    · intro hc; cases hc
    · rw [hs, hf]; omega
    · rw [hr, hs, hf]
  | true =>
    obtain ⟨hs, hf, ha, hb, hr⟩ := record_outcome_true_fields f score
    refine ⟨?_, le_of_eq hb.symm, fun _ => ⟨ha, hb⟩, ?_, hda, hdb, ?_, ?_⟩
    · rw [ha]; linarith
    · intro hc; cases hc
    · rw [hs, hf]; omega
    · rw [hr, hs, hf]

def featC9 : LearningFeature :=
  { sample_count := 4, success_count := 1, failure_count := 3,
    success_rate := some 0.25, avg_score := none,
    bandit_alpha := 2.0, bandit_beta := 4.0, decay_factor := 1.0 }

theorem learning_feature_spec_witness :
    (record_outcome featC9 true none).bandit_alpha = featC9.bandit_alpha + 1
  ∧ (record_outcome featC9 true none).bandit_beta = featC9.bandit_beta :=
  (learning_feature_spec featC9 true none 0.99).2.2.1 rfl

theorem selection_score_shape (a : RedditAccount) (m : ℕ) :
    ∃ B P : ℚ, ∀ k : ℤ,
      selection_score { a with karma_comment := k } m
        = max 0 ((100.0 + min ((k : ℚ) / 1000) 20 + B) * a.health_score - P) := by
  refine ⟨(match a.account_age_days with
            | some d => if d ≠ 0 then min ((d : ℚ) / 30) 10 else 0
            | none => 0)
        + (if a.removal_rate < 0.05 then 10
           else if a.removal_rate > 0.20 then (-20 : ℚ) else 0),
        (if ((m : ℤ) - (a.daily_actions_count : ℤ)) ≤ 2 then 10 else 0),
        fun k => ?_⟩
  unfold selection_score
  dsimp only
  cases a.account_age_days with
  | none =>
    dsimp only
    split_ifs <;> (congr 1; ring)
  | some d =>
    dsimp only
    split_ifs <;> (congr 1; ring)

theorem select_best_account_pair (a1 a2 : RedditAccount) (subreddit : String)
    (now : ℚ) (m : ℕ) (mi : ℚ)
    (h1s : a1.status = AccountStatus.active) (h2s : a2.status = AccountStatus.active)
    (h1c : can_post a1 now m mi = true) (h2c : can_post a2 now m mi = true)
    (hgt : account_publish_score a1 subreddit m < account_publish_score a2 subreddit m) :
    select_best_account [a1, a2] subreddit now m mi = some a2
  ∧ select_best_account [a2, a1] subreddit now m mi = some a2 := by
  have hd1 : (decide (a1.status = AccountStatus.active)) = true := by rw [h1s]; rfl
  have hd2 : (decide (a2.status = AccountStatus.active)) = true := by rw [h2s]; rfl
  constructor
  · unfold select_best_account
    dsimp only
    rw [@List.filter_cons_of_pos _ (fun x => decide (x.status = AccountStatus.active)) a1 [a2] hd1,
        @List.filter_cons_of_pos _ (fun x => decide (x.status = AccountStatus.active)) a2 [] hd2,
        List.filter_nil,
        @List.filter_cons_of_pos _ (fun x => can_post x now m mi) a1 [a2] h1c,
        @List.filter_cons_of_pos _ (fun x => can_post x now m mi) a2 [] h2c,
        List.filter_nil]
    dsimp only [List.map]
    simp only [pickFirstMax]
    rw [if_pos hgt]
  · unfold select_best_account
    dsimp only
    rw [@List.filter_cons_of_pos _ (fun x => decide (x.status = AccountStatus.active)) a2 [a1] hd2,
        @List.filter_cons_of_pos _ (fun x => decide (x.status = AccountStatus.active)) a1 [] hd1,
        List.filter_nil,
        @List.filter_cons_of_pos _ (fun x => can_post x now m mi) a2 [a1] h2c,
        @List.filter_cons_of_pos _ (fun x => can_post x now m mi) a1 [] h1c,
        List.filter_nil]
    dsimp only [List.map]
    simp only [pickFirstMax]
    rw [if_neg (not_lt.mpr hgt.le)]

/-- C7 (amended): selection_score is monotonically non-decreasing in
comment karma for health_score in [0,1], with the karma bonus capped from
20000 karma on; and of two ACTIVE can-post identities with karma 500 and
5000 agreeing on every other field, targeting a community neither has
used, selection picks the 5000-karma identity in either encounter order —
provided the shared health_score is positive and the 500-karma identity
selection score itself is positive (not clamped to zero). -/
theorem selection_score_karma_spec (a : RedditAccount) (max_daily_posts : ℕ)
    (h0 : 0 ≤ a.health_score) (h1 : a.health_score ≤ 1) :
    (∀ k1 k2 : ℤ, k1 ≤ k2 →
        selection_score { a with karma_comment := k1 } max_daily_posts
          ≤ selection_score { a with karma_comment := k2 } max_daily_posts)
  ∧ (∀ k : ℤ, 20000 ≤ k →
        selection_score { a with karma_comment := k } max_daily_posts
          = selection_score { a with karma_comment := 20000 } max_daily_posts)
  ∧ (∀ (target : String) (now min_action_interval : ℚ),
        a.status = AccountStatus.active →
        0 < a.health_score →
        can_post { a with karma_comment := (500 : ℤ) } now max_daily_posts min_action_interval = true →
        a.subreddit_activity.find? (fun p => decide (p.1 = target)) = none →
        0 < selection_score { a with karma_comment := (500 : ℤ) } max_daily_posts →
        select_best_account
            [{ a with karma_comment := (500 : ℤ) }, { a with karma_comment := (5000 : ℤ) }]
            target now max_daily_posts min_action_interval
          = some { a with karma_comment := (5000 : ℤ) }
      ∧ select_best_account
            [{ a with karma_comment := (5000 : ℤ) }, { a with karma_comment := (500 : ℤ) }]
            target now max_daily_posts min_action_interval
          = some { a with karma_comment := (5000 : ℤ) }) := by
  obtain ⟨B, P, hsh⟩ := selection_score_shape a max_daily_posts
  refine ⟨fun k1 k2 hk => ?_, fun k hk => ?_, fun target now mi hact hh hcp hfind hsc => ?_⟩
  · rw [hsh k1, hsh k2]
    have hmin : min ((k1 : ℚ) / 1000) 20 ≤ min ((k2 : ℚ) / 1000) 20 :=
      min_le_min ((div_le_div_right (by norm_num : (0:ℚ) < 1000)).mpr (by exact_mod_cast hk))
        (le_refl 20)
    exact max_le_max (le_refl 0)
      (sub_le_sub_right (mul_le_mul_of_nonneg_right (by linarith) h0) P)
  · rw [hsh k, hsh 20000]
    have e1 : min ((k : ℚ) / 1000) 20 = 20 := min_eq_right (by
      rw [le_div_iff (by norm_num : (0:ℚ) < 1000)]
      have : ((20000 : ℤ) : ℚ) ≤ (k : ℚ) := by exact_mod_cast hk
      push_cast at this ⊢
      linarith)
    have e2 : min (((20000 : ℤ) : ℚ) / 1000) 20 = 20 := min_eq_right (by push_cast; norm_num)
    rw [e1, e2]
  · have e1 : min (((500 : ℤ) : ℚ) / 1000) 20 = 0.5 := by
      rw [min_eq_left (by push_cast; norm_num)]
      push_cast; norm_num
    have e2 : min (((5000 : ℤ) : ℚ) / 1000) 20 = 5 := by
      rw [min_eq_left (by push_cast; norm_num)]
      push_cast; norm_num
    have h500 := hsh 500
    have h5000 := hsh 5000
    rw [e1] at h500
    rw [e2] at h5000
    have hx : 0 < (100.0 + 0.5 + B) * a.health_score - P := by
      rw [h500] at hsc
      rcases lt_max_iff.mp hsc with h | h
      · exact absurd h (lt_irrefl 0)
      · exact h
    have hlt : selection_score { a with karma_comment := (500 : ℤ) } max_daily_posts
        < selection_score { a with karma_comment := (5000 : ℤ) } max_daily_posts := by
      rw [h500, h5000]
      calc max 0 ((100.0 + 0.5 + B) * a.health_score - P)
          = (100.0 + 0.5 + B) * a.health_score - P := max_eq_right hx.le
        _ < (100.0 + 5 + B) * a.health_score - P := by
            have h45 : 0 < 4.5 * a.health_score := mul_pos (by norm_num) hh
            nlinarith [h45]
        _ ≤ max 0 ((100.0 + 5 + B) * a.health_score - P) := le_max_right _ _
    have hcp2 : can_post { a with karma_comment := (5000 : ℤ) } now max_daily_posts mi = true := hcp
    have haps1 : account_publish_score { a with karma_comment := (500 : ℤ) } target max_daily_posts
        = selection_score { a with karma_comment := (500 : ℤ) } max_daily_posts := by
      unfold account_publish_score
      dsimp only
      rw [hfind]
    have haps2 : account_publish_score { a with karma_comment := (5000 : ℤ) } target max_daily_posts
        = selection_score { a with karma_comment := (5000 : ℤ) } max_daily_posts := by
      unfold account_publish_score
      dsimp only
      rw [hfind]
    exact select_best_account_pair
      { a with karma_comment := (500 : ℤ) } { a with karma_comment := (5000 : ℤ) }
      target now max_daily_posts mi hact hact hcp hcp2
      (by rw [haps1, haps2]; exact hlt)

theorem select_best_account_pair_tie (a1 a2 : RedditAccount) (subreddit : String)
    (now : ℚ) (m : ℕ) (mi : ℚ)
    (h1s : a1.status = AccountStatus.active) (h2s : a2.status = AccountStatus.active)
    (h1c : can_post a1 now m mi = true) (h2c : can_post a2 now m mi = true)
    (hle : account_publish_score a2 subreddit m ≤ account_publish_score a1 subreddit m) :
    select_best_account [a1, a2] subreddit now m mi = some a1 := by
  have hd1 : (decide (a1.status = AccountStatus.active)) = true := by rw [h1s]; rfl
  have hd2 : (decide (a2.status = AccountStatus.active)) = true := by rw [h2s]; rfl
  unfold select_best_account
  dsimp only
  rw [@List.filter_cons_of_pos _ (fun x => decide (x.status = AccountStatus.active)) a1 [a2] hd1,
      @List.filter_cons_of_pos _ (fun x => decide (x.status = AccountStatus.active)) a2 [] hd2,
      List.filter_nil,
      @List.filter_cons_of_pos _ (fun x => can_post x now m mi) a1 [a2] h1c,
      @List.filter_cons_of_pos _ (fun x => can_post x now m mi) a2 [] h2c,
      List.filter_nil]
  dsimp only [List.map]
  simp only [pickFirstMax]
  rw [if_neg (not_lt.mpr hle)]

def acct500 : RedditAccount :=
  { username := "a500", karma_comment := 500, account_age_days := some 60,
    last_action_at := none, daily_actions_count := 0,
    status := AccountStatus.active, health_score := 0,
    consecutive_failures := 0, total_posts_made := 0, removal_rate := 0,
    subreddit_activity := [] }

def acct5000 : RedditAccount :=
  { acct500 with username := "a5000", karma_comment := 5000 }

/-- C7 counterexample: two ACTIVE can-post identities with karma 500 and
5000, equal age, removal rate, health (here 0) and daily usage, target
community used by neither — selection returns the 500-karma identity
(first encountered, scores tied at 0), not the 5000-karma one. -/
theorem selection_tie_counterexample :
    acct500.karma_comment = 500
  ∧ acct5000.karma_comment = 5000
  ∧ acct500.health_score = acct5000.health_score
  ∧ acct500.account_age_days = acct5000.account_age_days
  ∧ acct500.removal_rate = acct5000.removal_rate
  ∧ acct500.daily_actions_count = acct5000.daily_actions_count
  ∧ can_post acct500 0 10 60 = true
  ∧ can_post acct5000 0 10 60 = true
  ∧ select_best_account [acct500, acct5000] "devtools" 0 10 60 = some acct500
  ∧ ¬ (select_best_account [acct500, acct5000] "devtools" 0 10 60 = some acct5000) := by
  have hp1 : account_publish_score acct500 "devtools" 10 = 0 := by
    unfold account_publish_score selection_score
    dsimp only [acct500]
    norm_num [min_def]
  have hp2 : account_publish_score acct5000 "devtools" 10 = 0 := by
    unfold account_publish_score selection_score
    dsimp only [acct5000, acct500]
    norm_num [min_def]
  have hsel : select_best_account [acct500, acct5000] "devtools" 0 10 60 = some acct500 :=
    select_best_account_pair_tie acct500 acct5000 "devtools" 0 10 60 rfl rfl rfl rfl
      (le_of_eq (hp2.trans hp1.symm))
  refine ⟨rfl, rfl, rfl, rfl, rfl, rfl, rfl, rfl, hsel, fun hcontra => ?_⟩
  rw [hsel] at hcontra
  have hne : acct500 ≠ acct5000 := by
    intro he
    have : acct500.username = acct5000.username := by rw [he]
    exact absurd this (by decide)
  exact hne (Option.some.inj hcontra)

theorem selection_score_karma_spec_witness :
    select_best_account
        [{ acctC8 with karma_comment := (500 : ℤ) }, { acctC8 with karma_comment := (5000 : ℤ) }]
        "devtools" 0 10 60
      = some { acctC8 with karma_comment := (5000 : ℤ) } :=
  ((selection_score_karma_spec acctC8 10 (by norm_num [acctC8]) (by norm_num [acctC8])).2.2
    "devtools" 0 60 rfl (by norm_num [acctC8]) rfl rfl
    (by unfold selection_score; dsimp only [acctC8]; norm_num [min_def])).1

/-- ViralityPredictor._predict_heuristic — the live path of predict, since
no ML model is ever loaded (model stays None). -/
def predict_heuristic (sub : Submission) (velocity_threshold : ℚ) (now : ℚ) : ℚ :=
  let age_hours := max 0.1 (get_post_age_hours sub now)
  let score_velocity := (sub.score : ℚ) / age_hours
  let comment_velocity := (sub.num_comments : ℚ) / age_hours
  let velocity := score_velocity * 0.7 + comment_velocity * 0.3 * 10
  let s1 : ℚ := 0.5
  let s2 :=
    if velocity > velocity_threshold * 2 then s1 + 0.25
    else if velocity > velocity_threshold then s1 + 0.15
    else if velocity > velocity_threshold * 0.5 then s1 + 0.05
    else s1
  let s3 :=
    if age_hours < 1 then
      s2 + (if sub.score > 10 then 0.1 else 0) + (if sub.num_comments > 5 then 0.1 else 0)
    else if age_hours < 2 then (if sub.score > 50 then s2 + 0.1 else s2)
    else s2
  let s4 :=
    if sub.upvote_frac > 0.9 then s3 + 0.1
    else if sub.upvote_frac > 0.8 then s3 + 0.05
    else if sub.upvote_frac < 0.6 then s3 - 0.1
    else s3
  let s5 := if 40 ≤ sub.title.length ∧ sub.title.length ≤ 120 then s4 + 0.05 else s4
  let s6 := if containsSub sub.title "?" then s5 + 0.05 else s5
  let s7 := if sub.is_self ∧ sub.selftext.length > 100 then s6 + 0.05 else s6
  let comments_per_subscriber :=
    (sub.num_comments : ℚ) / ((max sub.subreddit_subscribers 1 : ℕ) : ℚ)
  let s8 := if comments_per_subscriber > 0.0001 then s7 + 0.1 else s7
  max 0.0 (min 1.0 s8)

/-- ViralityPredictor.predict (heuristic branch, model is None). -/
def predict (sub : Submission) (velocity_threshold : ℚ) (now : ℚ) : ℚ :=
  predict_heuristic sub velocity_threshold now

/-- The Opportunity row fields the miner fills in. -/
structure Opportunity where
  project_id : ℤ
  reddit_post_id : String
  subreddit : String
  post_title : String
  post_content : Option String
  post_created_at : ℚ
  post_score : ℤ
  post_num_comments : ℕ
  post_upvote_frac : ℚ
  relevance_score : ℚ
  virality_score : ℚ
  timing_score : ℚ
  composite_score : ℚ
  urgency : String
  velocity : ℚ
  velocity_threshold : ℚ
  status : String
  expires_at : ℚ
deriving DecidableEq

/-- OpportunityMiner._calculate_expiry (timestamps in epoch seconds). -/
def calculate_expiry (age_hours : ℚ) (urgency : String) (now : ℚ) : ℚ :=
  let window_hours : ℚ :=
    match urgency with
    | "urgent" => 1
    | "high" => 2
    | "medium" => 4
    | "low" => 8
    | "expired" => 0
    | _ => 4
  now + 3600 * max 0 (window_hours - age_hours)

/-- The Opportunity row constructed for one kept submission inside
OpportunityMiner._mine_subreddit. -/
def buildOpportunity (project : Project) (subreddit_name : String)
    (velocity_threshold : ℚ) (now : ℚ) (sub : Submission) : Opportunity :=
  let age_hours := get_post_age_hours sub now
  let relevance_score := calculate_relevance sub project
  let velocity := calculate_post_velocity sub now
  let virality_score := predict sub velocity_threshold now
  let timing_score := calculate_timing_score velocity age_hours velocity_threshold
  let urgency := classify_urgency velocity age_hours velocity_threshold
  let composite_score :=
    calculate_composite_score relevance_score virality_score timing_score 0.5
  { project_id := project.id
    reddit_post_id := sub.id
    subreddit := subreddit_name
    post_title := sub.title
    post_content := if sub.is_self then some sub.selftext else none
    post_created_at := sub.created_utc
    post_score := sub.score
    post_num_comments := sub.num_comments
    post_upvote_frac := sub.upvote_frac
    relevance_score := relevance_score
    virality_score := virality_score
    timing_score := timing_score
    composite_score := composite_score
    urgency := urgency
    velocity := velocity
    velocity_threshold := velocity_threshold
    status := "pending"
    expires_at := calculate_expiry age_hours urgency now }

/-- The per-candidate loop of OpportunityMiner._mine_subreddit: skip ids in the
in-memory known set, skip posts older than 24h, skip relevance below 0.3,
otherwise score, build the Opportunity row and add the id to the known
set. -/
def mine_subreddit (project : Project) (subreddit_name : String)
    (velocity_threshold : ℚ) (now : ℚ) :
    List Submission → List String → List Opportunity
  | [], _ => []
  | sub :: rest, existing_ids =>
    if sub.id ∈ existing_ids then
      mine_subreddit project subreddit_name velocity_threshold now rest existing_ids
    else if get_post_age_hours sub now > 24 then
      mine_subreddit project subreddit_name velocity_threshold now rest existing_ids
    else if calculate_relevance sub project < 0.3 then
      mine_subreddit project subreddit_name velocity_threshold now rest existing_ids
    else
      buildOpportunity project subreddit_name velocity_threshold now sub ::
      mine_subreddit project subreddit_name velocity_threshold now rest
        (sub.id :: existing_ids)

theorem mine_subreddit_mem (project : Project) (sn : String) (vt now : ℚ) :
    ∀ (subs : List Submission) (existing : List String),
      ∀ opp ∈ mine_subreddit project sn vt now subs existing,
        0.3 ≤ opp.relevance_score
      ∧ opp.reddit_post_id ∉ existing
      ∧ (now - opp.post_created_at) / 3600 ≤ 24 := by
  intro subs
  induction subs with
  | nil =>
    intro existing opp hopp
    simp [mine_subreddit] at hopp
  | cons sub rest ih =>
    intro existing opp hopp
    simp only [mine_subreddit] at hopp
    split_ifs at hopp with h1 h2 h3
    · exact ih existing opp hopp
    · exact ih existing opp hopp
    · exact ih existing opp hopp
    · rcases List.mem_cons.mp hopp with heq | hmem
      · subst heq
        exact ⟨not_lt.mp h3, h1, not_lt.mp h2⟩
      · obtain ⟨hr, hn, ha⟩ := ih (sub.id :: existing) opp hmem
        exact ⟨hr, fun hc => hn (List.mem_cons_of_mem _ hc), ha⟩

theorem mine_subreddit_nodup (project : Project) (sn : String) (vt now : ℚ) :
    ∀ (subs : List Submission) (existing : List String),
      ((mine_subreddit project sn vt now subs existing).map
          (fun o => o.reddit_post_id)).Nodup := by
  intro subs
  induction subs with
  | nil => intro existing; simp [mine_subreddit]
  | cons sub rest ih =>
    intro existing
    simp only [mine_subreddit]
    split_ifs with h1 h2 h3
    · exact ih existing
    · exact ih existing
    · exact ih existing
    · rw [List.map_cons, List.nodup_cons]
      refine ⟨?_, ih (sub.id :: existing)⟩
      intro hc
      obtain ⟨o, ho, hfo⟩ := List.mem_map.mp hc
      have hn := (mine_subreddit_mem project sn vt now rest (sub.id :: existing) o ho).2.1
      rw [hfo] at hn
      exact hn (List.mem_cons_self _ _)

theorem mine_subreddit_pass2 (project : Project) (sn : String) (vt now : ℚ) :
    ∀ (subs : List Submission) (existing e2 : List String),
      (∀ x ∈ existing, x ∈ e2) →
      (∀ opp ∈ mine_subreddit project sn vt now subs existing,
          opp.reddit_post_id ∈ e2) →
      mine_subreddit project sn vt now subs e2 = [] := by
  intro subs
  induction subs with
  | nil => intro existing e2 _ _; rfl
  | cons sub rest ih =>
    intro existing e2 hsub hout
    by_cases hA : sub.id ∈ e2
    · have hgoal : mine_subreddit project sn vt now (sub :: rest) e2
          = mine_subreddit project sn vt now rest e2 := by
        simp only [mine_subreddit]; rw [if_pos hA]
      rw [hgoal]
      by_cases h1 : sub.id ∈ existing
      · refine ih existing e2 hsub ?_
        intro opp ho
        refine hout opp ?_
        simp only [mine_subreddit]; rw [if_pos h1]; exact ho
      · by_cases h2 : get_post_age_hours sub now > 24
        · refine ih existing e2 hsub ?_
          intro opp ho
          refine hout opp ?_
          simp only [mine_subreddit]; rw [if_neg h1, if_pos h2]; exact ho
        · by_cases h3 : calculate_relevance sub project < 0.3
          · refine ih existing e2 hsub ?_
            intro opp ho
            refine hout opp ?_
            simp only [mine_subreddit]; rw [if_neg h1, if_neg h2, if_pos h3]; exact ho
          · refine ih (sub.id :: existing) e2 ?_ ?_
            · intro x hx
              rcases List.mem_cons.mp hx with rfl | hx'
              · exact hA
              · exact hsub _ hx'
            · intro opp ho
              refine hout opp ?_
              simp only [mine_subreddit]; rw [if_neg h1, if_neg h2, if_neg h3]
              exact List.mem_cons_of_mem _ ho
    · have h1 : sub.id ∉ existing := fun hc => hA (hsub _ hc)
      by_cases h2 : get_post_age_hours sub now > 24
      · have hgoal : mine_subreddit project sn vt now (sub :: rest) e2
            = mine_subreddit project sn vt now rest e2 := by
          simp only [mine_subreddit]; rw [if_neg hA, if_pos h2]
        rw [hgoal]
        refine ih existing e2 hsub ?_
        intro opp ho
        refine hout opp ?_
        simp only [mine_subreddit]; rw [if_neg h1, if_pos h2]; exact ho
      · by_cases h3 : calculate_relevance sub project < 0.3
        · have hgoal : mine_subreddit project sn vt now (sub :: rest) e2
              = mine_subreddit project sn vt now rest e2 := by
            simp only [mine_subreddit]; rw [if_neg hA, if_neg h2, if_pos h3]
          rw [hgoal]
          refine ih existing e2 hsub ?_
          intro opp ho
          refine hout opp ?_
          simp only [mine_subreddit]; rw [if_neg h1, if_neg h2, if_pos h3]; exact ho
        · exfalso
          apply hA
          have hmem : buildOpportunity project sn vt now sub
              ∈ mine_subreddit project sn vt now (sub :: rest) existing := by
            simp only [mine_subreddit]; rw [if_neg h1, if_neg h2, if_neg h3]
            exact List.mem_cons_self _ _
          exact hout _ hmem

/-- C6: every Opportunity produced by a mining pass has relevance at least
0.3, an external post id absent from the known-id set at processing time
and distinct from every other id produced in the pass, and a post age of
at most 24 hours; mining the same candidates again with the known-id set
extended by the ids of the pass itself produces zero new opportunities. -/
theorem mine_subreddit_spec (project : Project) (sn : String) (vt now : ℚ)
    (subs : List Submission) (existing : List String) :
    (∀ opp ∈ mine_subreddit project sn vt now subs existing,
        0.3 ≤ opp.relevance_score
      ∧ opp.reddit_post_id ∉ existing
      ∧ (now - opp.post_created_at) / 3600 ≤ 24)
  ∧ ((mine_subreddit project sn vt now subs existing).map
        (fun o => o.reddit_post_id)).Nodup
  ∧ mine_subreddit project sn vt now subs
      (((mine_subreddit project sn vt now subs existing).map
          (fun o => o.reddit_post_id)) ++ existing) = [] := by
  refine ⟨mine_subreddit_mem project sn vt now subs existing,
    mine_subreddit_nodup project sn vt now subs existing, ?_⟩
  refine mine_subreddit_pass2 project sn vt now subs existing _ ?_ ?_
  · intro x hx
    exact List.mem_append_right _ hx
  · intro opp ho
    exact List.mem_append_left _ (List.mem_map.mpr ⟨opp, ho, rfl⟩)

theorem mine_subreddit_spec_witness :
    mine_subreddit projC3 "devtools" 15 1800 [subC3]
        (((mine_subreddit projC3 "devtools" 15 1800 [subC3] []).map
            (fun o => o.reddit_post_id)) ++ []) = []
  ∧ 0.3 ≤ (buildOpportunity projC3 "devtools" 15 1800 subC3).relevance_score := by
  have hrel : ¬ (calculate_relevance subC3 projC3 < 0.3) := by
    unfold calculate_relevance
    rw [if_neg (by decide : ¬ (projC3.keywords = []))]
    dsimp only
    rw [show countMatches (submissionText subC3) projC3.keywords = 2 from by decide,
        show countMatches (submissionText subC3) projC3.negative_keywords = 0 from by decide]
    norm_num [projC3, min_def, max_def]
  have hmem : buildOpportunity projC3 "devtools" 15 1800 subC3
      ∈ mine_subreddit projC3 "devtools" 15 1800 [subC3] [] := by
    simp only [mine_subreddit]
    rw [if_neg (by simp : ¬ (subC3.id ∈ ([] : List String))),
        if_neg (by norm_num [get_post_age_hours, subC3] :
          ¬ (get_post_age_hours subC3 1800 > 24)),
        if_neg hrel]
    exact List.mem_cons_self _ _
  exact ⟨(mine_subreddit_spec projC3 "devtools" 15 1800 [subC3] []).2.2,
    ((mine_subreddit_spec projC3 "devtools" 15 1800 [subC3] []).1 _ hmem).1⟩

end Adkuu
